import Mathlib

/-!
Verification of the aidp-video-forge filter-chain compiler, command compiler,
preset catalog and remote job wait loop, as a shallow embedding of the Python
sources (`src/gpu_pipeline.py`, `src/aidp_client.py`, `src/forge.py`,
`src/presets.py`).

Modelling conventions:
* The Python `preset: dict` is modelled as a record of optional fields, one per
  key the source reads.  `preset.get(k, d)` becomes `Option.getD`, `"k" in
  preset` becomes `Option.isSome` (matched on), and Python truthiness of a
  retrieved value is modelled per the runtime type the repository stores under
  that key (`strTruthy`, `dictTruthy`, `intTruthy`, `floatTruthy` below).
* Numeric preset values that the source only ever interpolates into f-strings
  (`fps`, `letterbox`, `vignette`, the `eq` deltas) are carried as their
  Python string rendering, so the compiled filter text is reproduced exactly.
* `GPUPipeline._build_filter_chain` appends filter fragments to a Python list
  and joins them with ",".  We mirror this by building a `List FilterStage`
  (each constructor rendering to exactly the fragment the source appends, see
  `renderStage`) and joining the rendered fragments.
* Clock time in `AIDPClient.wait_for_job` is modelled by pairing every poll
  response with the value `time.time()` would return right after that poll;
  `start` is the reading taken at the top of the call (`start_time`).
-/

/-- Truthiness of an optional Python `str` (absent or `""` is falsy). -/
def strTruthy : Option String → Bool
  | none => false
  | some s => !s.isEmpty

/-- Truthiness of an optional Python `dict`, modelled as an ordered
association list (absent or `{}` is falsy). -/
def dictTruthy : Option (List (String × String)) → Bool
  | none => false
  | some l => !l.isEmpty

/-- Truthiness of an optional Python `int` (absent or `0` is falsy). -/
def intTruthy : Option Int → Bool
  | none => false
  | some n => n != 0

/-- Truthiness of an optional Python `float` carried as its string rendering
(absent or a rendering of `0.0` is falsy). -/
def floatTruthy : Option String → Bool
  | none => false
  | some s => s != "0.0" && s != "-0.0"

/-- The preset dictionary: one optional field per key read anywhere in the
repository (`gpu_pipeline.py`, `aidp_client.py`, `presets.py`).  An absent
field models a key that is missing from the Python dict. -/
structure Preset where
  description : Option String := none
  encoder : Option String := none
  speed : Option String := none
  rate_control : Option String := none
  cq : Option Int := none
  crf : Option Int := none
  bitrate : Option String := none
  maxrate : Option String := none
  bufsize : Option String := none
  tune : Option String := none
  bframes : Option Int := none
  cpu_preset : Option String := none
  audio_codec : Option String := none
  audio_bitrate : Option String := none
  audio_sample_rate : Option Int := none
  faststart : Option Bool := none
  hwaccel : Option Bool := none
  use_cuda : Option Bool := none
  scale : Option (Nat × Nat) := none
  fps : Option String := none
  deinterlace : Option Bool := none
  tonemap : Option Bool := none
  eq : Option (List (String × String)) := none
  unsharp : Option String := none
  grain : Option Int := none
  letterbox : Option String := none
  vignette : Option String := none
  min_vram_gb : Option Int := none
  preferred_gpu : Option String := none
  cuda_compute : Option String := none
  preferred_lut : Option String := none
deriving DecidableEq

/-- The preset with every optional field absent (the empty Python dict). -/
def emptyPreset : Preset := {}

/-- One compiled filter stage.  Each constructor corresponds to one string
fragment `GPUPipeline._build_filter_chain` can append to its `filters` list;
`renderStage` reproduces that fragment verbatim.  Boolean arguments record
whether the CUDA (accelerated) variant of the stage was chosen. -/
inductive FilterStage where
  | upload : FilterStage
  | download : FilterStage
  | scale (cuda : Bool) (w h : Nat) : FilterStage
  | deinterlace (cuda : Bool) : FilterStage
  | tonemap (cuda : Bool) : FilterStage
  | framerate (fps : String) : FilterStage
  | colorLut (path : String) : FilterStage
  | colorEq (params : List (String × String)) : FilterStage
  | sharpen (v : String) : FilterStage
  | grain (v : String) : FilterStage
  | letterbox (aspect : String) : FilterStage
  | vignette (angle : String) : FilterStage
deriving DecidableEq

/-- The exact FFmpeg filter fragment `_build_filter_chain` appends for each
stage (gpu_pipeline.py lines 160-222). -/
def renderStage : FilterStage → String
  | FilterStage.upload => "hwupload_cuda"
  | FilterStage.download => "hwdownload,format=nv12"
  | FilterStage.scale true w h => "scale_cuda=" ++ toString w ++ ":" ++ toString h
  | FilterStage.scale false w h => "scale=" ++ toString w ++ ":" ++ toString h
  | FilterStage.deinterlace true => "yadif_cuda=0:-1:0"
  | FilterStage.deinterlace false => "yadif=0:-1:0"
  | FilterStage.tonemap true => "tonemap_cuda=tonemap=hable:peak=100"
  | FilterStage.tonemap false => "zscale=t=linear:npl=100,tonemap=hable,zscale=t=bt709"
  | FilterStage.framerate f => "fps=" ++ f
  | FilterStage.colorLut p => "lut3d=\x27" ++ p ++ "\x27"
  | FilterStage.colorEq ps =>
      "eq=" ++ String.intercalate "," (ps.map (fun kv => kv.1 ++ "=" ++ kv.2))
  | FilterStage.sharpen v => "unsharp=" ++ v
  | FilterStage.grain v => "noise=c0s=" ++ v ++ ":c0f=t+u"
  | FilterStage.letterbox a => "pad=iw:iw/" ++ a ++ ":(ow-iw)/2:(oh-ih)/2:black"
  | FilterStage.vignette v => "vignette=angle=" ++ v

/-- The stages `_build_filter_chain` appends before the hwdownload point, in
source order: hwupload_cuda, scale, deinterlace (yadif), tone map, fps
(gpu_pipeline.py lines 160-188).  `useCuda` is the source's local
`use_cuda = self.has_cuda and preset.get("use_cuda", True)`. -/
def headSegs (useCuda : Bool) (p : Preset) : List FilterStage :=
  (if useCuda && !(p.hwaccel.getD true) then [FilterStage.upload] else [])
  ++ (match p.scale with
      | some wh => [FilterStage.scale useCuda wh.1 wh.2]
      | none => [])
  ++ (if p.deinterlace.getD false then [FilterStage.deinterlace useCuda] else [])
  ++ (if p.tonemap.getD false then [FilterStage.tonemap useCuda] else [])
  ++ (match p.fps with
      | some f => [FilterStage.framerate f]
      | none => [])

/-- The CPU-side tail stages `_build_filter_chain` appends after the
hwdownload point, in source order: lut3d, eq, unsharp, noise (grain), pad
(letterbox), vignette (gpu_pipeline.py lines 195-222). -/
def tailSegs (p : Preset) (lutPath : Option String) : List FilterStage :=
  (if strTruthy lutPath then [FilterStage.colorLut (lutPath.getD "")] else [])
  ++ (if dictTruthy p.eq then [FilterStage.colorEq (p.eq.getD [])] else [])
  ++ (if strTruthy p.unsharp then [FilterStage.sharpen (p.unsharp.getD "")] else [])
  ++ (if intTruthy p.grain then [FilterStage.grain (toString (p.grain.getD 0))] else [])
  ++ (if floatTruthy p.letterbox then [FilterStage.letterbox (p.letterbox.getD "")] else [])
  ++ (if floatTruthy p.vignette then [FilterStage.vignette (p.vignette.getD "")] else [])

/-- `GPUPipeline._build_filter_chain` as a stage list (gpu_pipeline.py lines
151-222): the head stages, then `hwdownload,format=nv12` exactly when CUDA is
in use and a CPU-only filter (`lut_path or preset.get("eq") or
preset.get("unsharp")`) is requested, then the CPU tail stages. -/
def buildStageList (hasCuda : Bool) (p : Preset) (lutPath : Option String) :
    List FilterStage :=
  let useCuda := hasCuda && p.use_cuda.getD true
  let needsCpu := strTruthy lutPath || dictTruthy p.eq || strTruthy p.unsharp
  headSegs useCuda p
  ++ (if useCuda && needsCpu then [FilterStage.download] else [])
  ++ tailSegs p lutPath

/-- `GPUPipeline._build_filter_chain`'s return value: the rendered fragments
joined with "," (or the empty string when nothing was appended,
gpu_pipeline.py line 224). -/
def buildFilterChain (hasCuda : Bool) (p : Preset) (lutPath : Option String) :
    String :=
  let filters := (buildStageList hasCuda p lutPath).map renderStage
  if filters.isEmpty then "" else String.intercalate "," filters

/-- `GPUPipeline.NVENC_PRESETS` (gpu_pipeline.py lines 34-41). -/
def NVENC_PRESETS : List (String × String) :=
  [("fastest", "p1"), ("fast", "p2"), ("medium", "p4"),
   ("slow", "p5"), ("quality", "p6"), ("best", "p7")]

/-- Python's `dict.get(key, default)` over an association list. -/
def lookupD (m : List (String × String)) (key dflt : String) : String :=
  match m.find? (fun kv => kv.1 == key) with
  | some kv => kv.2
  | none => dflt

/-- Does the first character list start with the second? -/
def startsWithChars : List Char → List Char → Bool
  | _, [] => true
  | [], _ :: _ => false
  | a :: as, b :: bs => a == b && startsWithChars as bs

/-- Substring containment over character lists: does the first list contain
the second as a contiguous run? -/
def containsChars : List Char → List Char → Bool
  | [], needle => needle.isEmpty
  | c :: cs, needle => startsWithChars (c :: cs) needle || containsChars cs needle

/-- Python's `"nvenc" in encoder` substring test. -/
def hasNvencName (enc : String) : Bool :=
  containsChars enc.data "nvenc".data

/-- The encoder chosen by `build_gpu_command` (gpu_pipeline.py line 101):
`preset.get("encoder", "h264_nvenc" if self.has_nvenc else "libx264")`. -/
def selectEncoder (hasNvenc : Bool) (p : Preset) : String :=
  p.encoder.getD (if hasNvenc then "h264_nvenc" else "libx264")

/-- The `-vf` block of `build_gpu_command` (gpu_pipeline.py lines 96-98):
emitted only when the compiled filter chain is non-empty. -/
def vfArgs (hasCuda : Bool) (p : Preset) (lutPath : Option String) : List String :=
  let filters := buildFilterChain hasCuda p lutPath
  if filters == "" then [] else ["-vf", filters]

/-- `GPUPipeline.build_gpu_command` (gpu_pipeline.py lines 65-149): the full
FFmpeg argument list.  `hasNvenc`/`hasCuda` are the probed capability flags
`self.has_nvenc`/`self.has_cuda`. -/
def buildGpuCommand (ffmpegPath : String) (hasNvenc hasCuda : Bool)
    (inputPath outputPath : String) (p : Preset) (lutPath : Option String) :
    List String :=
  let encoder := selectEncoder hasNvenc p
  [ffmpegPath, "-hide_banner", "-y"]
  ++ (if p.hwaccel.getD true && hasNvenc then
        ["-hwaccel", "cuda", "-hwaccel_output_format", "cuda"]
      else [])
  ++ ["-i", inputPath]
  ++ vfArgs hasCuda p lutPath
  ++ ["-c:v", encoder]
  ++ (if hasNvencName encoder then
        ["-preset", lookupD NVENC_PRESETS (p.speed.getD "medium") "p4",
         "-rc", p.rate_control.getD "vbr",
         "-cq", toString (p.cq.getD 23),
         "-b:v", p.bitrate.getD "0",
         "-maxrate", p.maxrate.getD "50M",
         "-bufsize", p.bufsize.getD "100M"]
        ++ (if strTruthy p.tune then ["-tune", p.tune.getD ""] else [])
        ++ ["-bf", toString (p.bframes.getD 3)]
      else
        ["-preset", p.cpu_preset.getD "medium",
         "-crf", toString (p.crf.getD 23)])
  ++ (let audioCodec := p.audio_codec.getD "aac"
      if audioCodec == "copy" then ["-c:a", "copy"]
      else ["-c:a", audioCodec,
            "-b:a", p.audio_bitrate.getD "128k",
            "-ar", toString (p.audio_sample_rate.getD 48000)])
  ++ (if p.faststart.getD true then ["-movflags", "+faststart"] else [])
  ++ [outputPath]

/-- Stage classification used by the ordering and placement claims. -/
def isCpuOnly : FilterStage → Bool
  | FilterStage.colorLut _ => true
  | FilterStage.colorEq _ => true
  | FilterStage.sharpen _ => true
  | FilterStage.grain _ => true
  | FilterStage.letterbox _ => true
  | FilterStage.vignette _ => true
  | _ => false

/-- Is this stage the Download stage? -/
def isDownload : FilterStage → Bool
  | FilterStage.download => true
  | _ => false

/-- Is this stage the Upload stage? -/
def isUpload : FilterStage → Bool
  | FilterStage.upload => true
  | _ => false

/-- A stage executing on the accelerator: Upload/Download (which exist only on
the accelerated path) and any stage whose CUDA variant was chosen. -/
def isAccelerated : FilterStage → Bool
  | FilterStage.upload => true
  | FilterStage.download => true
  | FilterStage.scale c _ _ => c
  | FilterStage.deinterlace c => c
  | FilterStage.tonemap c => c
  | _ => false

/-- Position of each stage kind in the order `_build_filter_chain` emits them:
Upload, Scale, Deinterlace, ToneMap, FrameRateConvert, Download, ColorLUT,
ColorCorrect, Sharpen, Grain, Letterbox, Vignette. -/
def tagOf : FilterStage → Nat
  | FilterStage.upload => 0
  | FilterStage.scale _ _ _ => 1
  | FilterStage.deinterlace _ => 2
  | FilterStage.tonemap _ => 3
  | FilterStage.framerate _ => 4
  | FilterStage.download => 5
  | FilterStage.colorLut _ => 6
  | FilterStage.colorEq _ => 7
  | FilterStage.sharpen _ => 8
  | FilterStage.grain _ => 9
  | FilterStage.letterbox _ => 10
  | FilterStage.vignette _ => 11

/-- The maximal pipeline the compiler could emit for given inputs: one stage
of each kind, in emission order.  Every compiled pipeline is a sublist. -/
def masterStages (hasCuda : Bool) (p : Preset) (lutPath : Option String) :
    List FilterStage :=
  let useCuda := hasCuda && p.use_cuda.getD true
  [FilterStage.upload,
   FilterStage.scale useCuda (p.scale.getD (0, 0)).1 (p.scale.getD (0, 0)).2,
   FilterStage.deinterlace useCuda,
   FilterStage.tonemap useCuda,
   FilterStage.framerate (p.fps.getD ""),
   FilterStage.download,
   FilterStage.colorLut (lutPath.getD ""),
   FilterStage.colorEq (p.eq.getD []),
   FilterStage.sharpen (p.unsharp.getD ""),
   FilterStage.grain (toString (p.grain.getD 0)),
   FilterStage.letterbox (p.letterbox.getD ""),
   FilterStage.vignette (p.vignette.getD "")]

/-- A job status snapshot as returned by one `get_job_status` poll
(aidp_client.py lines 158-165): the `status` field, with the payload the wait
loop reads from terminal snapshots (`output_file_id`, `error`). -/
inductive JobStatus where
  | queued : JobStatus
  | running : JobStatus
  | completed (outputFileId : String) : JobStatus
  | failed (error : Option String) : JobStatus
deriving DecidableEq

/-- Observable outcome of `AIDPClient.wait_for_job`: the completed snapshot is
returned, an `AIDPError` with the given message is raised, or the supplied
poll trace ran out while the loop was still polling. -/
inductive WaitOutcome where
  | finished (outputFileId : String) : WaitOutcome
  | raised (msg : String) : WaitOutcome
  | polling : WaitOutcome
deriving DecidableEq

/-- `AIDPClient.wait_for_job` (aidp_client.py lines 167-203) over a finite
trace of poll responses, each paired with the clock reading right after that
poll.  `start` is `start_time = time.time()` taken at the top of the call.
Per iteration the source checks, in order: completed (return), failed (raise
`AIDPError("Job failed: " + status.get("error", "Unknown error"))`), then
elapsed-time strictly greater than `timeout` (raise
`AIDPError("Job timed out after {timeout} seconds")`), else sleep and poll
again.  The progress callback only observes snapshots and is not modelled. -/
def waitForJob (timeout start : Nat) : List (JobStatus × Nat) → WaitOutcome
  | [] => WaitOutcome.polling
  | (st, now) :: rest =>
    match st with
    | JobStatus.completed fid => WaitOutcome.finished fid
    | JobStatus.failed e =>
        WaitOutcome.raised ("Job failed: " ++ e.getD "Unknown error")
    | _ =>
        if now - start > timeout then
          WaitOutcome.raised ("Job timed out after " ++ toString timeout ++ " seconds")
        else
          waitForJob timeout start rest

/-- The sequential wait-and-download loop of `batch_process` (forge.py lines
191-197): jobs are awaited in submission order; a completed job's output file
is downloaded and the job is reported; an exception raised by `wait_for_job`
propagates out of the loop, so no later job is awaited.  Result: the
`(job name, downloaded output_file_id)` pairs reported, and the message of the
exception that escaped the loop, if any.  A `polling` entry models a wait that
never returns: nothing further is observed. -/
def batchAwait : List (String × WaitOutcome) → List (String × String) × Option String
  | [] => ([], none)
  | (name, WaitOutcome.finished fid) :: rest =>
      let r := batchAwait rest
      ((name, fid) :: r.1, r.2)
  | (_, WaitOutcome.raised m) :: _ => ([], some m)
  | (_, WaitOutcome.polling) :: _ => ([], none)

/-- The catalog entry `PRESETS["default"]` (presets.py lines 7-17). -/
def defaultPreset : Preset :=
  { description := some "Standard web-optimized output with GPU encoding",
    encoder := some "h264_nvenc", speed := some "medium", cq := some 23,
    rate_control := some "vbr", audio_codec := some "aac",
    audio_bitrate := some "128k", faststart := some true,
    min_vram_gb := some 4 }

/-- The preset catalog `PRESETS` (presets.py lines 6-220), in source order.
Float-valued fields are carried as their Python f-string rendering. -/
def PRESETS : List (String × Preset) :=
  [("default", defaultPreset),
   ("cinematic",
    { description := some "Film-like output with teal-orange grade, grain, and letterbox",
      encoder := some "h264_nvenc", speed := some "quality", cq := some 20,
      rate_control := some "vbr", bframes := some 4,
      eq := some [("brightness", "0.02"), ("contrast", "1.1"), ("saturation", "1.15")],
      grain := some 8, letterbox := some "2.39",
      unsharp := some "5:5:0.5:5:5:0.5", audio_codec := some "aac",
      audio_bitrate := some "192k", faststart := some true,
      min_vram_gb := some 6, preferred_lut := some "Cinematic_Teal_Orange.cube" }),
   ("broadcast",
    { description := some "Broadcast-safe output for TV/streaming platforms",
      encoder := some "h264_nvenc", speed := some "quality", cq := some 18,
      rate_control := some "cbr", bitrate := some "15M", maxrate := some "20M",
      bufsize := some "30M", scale := some (1920, 1080), fps := some "29.97",
      audio_codec := some "aac", audio_bitrate := some "256k",
      audio_sample_rate := some 48000, faststart := some true,
      min_vram_gb := some 6, preferred_lut := some "Broadcast_Safe.cube" }),
   ("social_vertical",
    { description := some "Vertical 9:16 output optimized for TikTok/Reels/Shorts",
      encoder := some "h264_nvenc", speed := some "fast", cq := some 22,
      rate_control := some "vbr", scale := some (1080, 1920), fps := some "30",
      eq := some [("brightness", "0.03"), ("contrast", "1.08"), ("saturation", "1.2")],
      unsharp := some "3:3:0.8", audio_codec := some "aac",
      audio_bitrate := some "128k", faststart := some true,
      min_vram_gb := some 4 }),
   ("hdr_to_sdr",
    { description := some "Convert HDR content to SDR with GPU tone mapping",
      encoder := some "h264_nvenc", speed := some "medium", cq := some 20,
      rate_control := some "vbr", hwaccel := some true, tonemap := some true,
      audio_codec := some "copy", faststart := some true,
      min_vram_gb := some 8, cuda_compute := some "7.5" }),
   ("hevc_master",
    { description := some "High-quality HEVC output for archival/master",
      encoder := some "hevc_nvenc", speed := some "quality", cq := some 18,
      rate_control := some "vbr", bframes := some 4, audio_codec := some "aac",
      audio_bitrate := some "320k", audio_sample_rate := some 48000,
      faststart := some true, min_vram_gb := some 8 }),
   ("fast_preview",
    { description := some "Fast preview encode for quick review",
      encoder := some "h264_nvenc", speed := some "fastest", cq := some 28,
      rate_control := some "vbr", scale := some (1280, 720), fps := some "30",
      audio_codec := some "aac", audio_bitrate := some "96k",
      faststart := some true, min_vram_gb := some 2 }),
   ("youtube",
    { description := some "YouTube recommended settings with GPU encoding",
      encoder := some "h264_nvenc", speed := some "medium", cq := some 18,
      rate_control := some "vbr", bitrate := some "0", maxrate := some "40M",
      bufsize := some "80M", bframes := some 2, scale := some (3840, 2160),
      fps := some "60", audio_codec := some "aac",
      audio_bitrate := some "384k", audio_sample_rate := some 48000,
      faststart := some true, min_vram_gb := some 8 }),
   ("netflix",
    { description := some "Netflix delivery specification",
      encoder := some "hevc_nvenc", speed := some "quality", cq := some 16,
      rate_control := some "vbr", bitrate := some "0", maxrate := some "25M",
      bufsize := some "50M", bframes := some 4, scale := some (3840, 2160),
      fps := some "23.976", audio_codec := some "aac",
      audio_bitrate := some "448k", audio_sample_rate := some 48000,
      faststart := some true, min_vram_gb := some 10 }),
   ("vintage_film",
    { description := some "Vintage film look with faded colors and heavy grain",
      encoder := some "h264_nvenc", speed := some "quality", cq := some 20,
      rate_control := some "vbr",
      eq := some [("brightness", "-0.02"), ("contrast", "0.95"),
                  ("saturation", "0.7"), ("gamma", "1.1")],
      grain := some 25, vignette := some "0.4", letterbox := some "1.66",
      audio_codec := some "aac", audio_bitrate := some "128k",
      faststart := some true, min_vram_gb := some 6,
      preferred_lut := some "Vintage_Fade.cube" }),
   ("documentary",
    { description := some "Clean, natural look for documentary content",
      encoder := some "h264_nvenc", speed := some "quality", cq := some 19,
      rate_control := some "vbr",
      eq := some [("brightness", "0.01"), ("contrast", "1.02"), ("saturation", "0.95")],
      unsharp := some "3:3:0.3", audio_codec := some "aac",
      audio_bitrate := some "192k", faststart := some true,
      min_vram_gb := some 6, preferred_lut := some "Documentary_Natural.cube" }),
   ("action",
    { description := some "High contrast, punchy colors for action content",
      encoder := some "h264_nvenc", speed := some "medium", cq := some 19,
      rate_control := some "vbr", bframes := some 2,
      eq := some [("brightness", "0.0"), ("contrast", "1.25"), ("saturation", "1.3")],
      unsharp := some "5:5:1.0:5:5:0.5", audio_codec := some "aac",
      audio_bitrate := some "256k", faststart := some true,
      min_vram_gb := some 6, preferred_lut := some "Blockbuster_Action.cube" })]

/-- Catalog lookup: `PRESETS.get(name)` as an `Option`. -/
def lookupPreset (name : String) : Option Preset :=
  (PRESETS.find? (fun kv => kv.1 == name)).map (fun kv => kv.2)

/-- `get_preset` (presets.py lines 223-225):
`PRESETS.get(name, PRESETS["default"])`.  `PRESETS["default"]` is the catalog
entry `defaultPreset` (see `lookup_default`). -/
def get_preset (name : String) : Preset :=
  (lookupPreset name).getD defaultPreset

/-- The scenario preset `{encoder:"h264_nvenc", scale:(1920,1080),
deinterlace:true}` with no other fields set. -/
def scenarioPreset : Preset :=
  { encoder := some "h264_nvenc", scale := some (1920, 1080),
    deinterlace := some true }

/-- The scenario preset with hardware-accelerated decode explicitly disabled
(`hwaccel: false`), so the frame does not originate on the accelerator. -/
def scenarioPresetNoHwaccel : Preset :=
  { scenarioPreset with hwaccel := some false }

/-- A preset requesting only film grain (a CPU-only tail stage that is NOT in
the source's `needs_cpu_filters` test). -/
def grainPreset : Preset := { grain := some 5 }

/-- A preset requesting only sharpening (which IS in the source's
`needs_cpu_filters` test). -/
def unsharpPreset : Preset := { unsharp := some "3:3:0.3" }

/-- A preset that explicitly names the accelerated encoder. -/
def explicitNvencPreset : Preset := { encoder := some "h264_nvenc" }

/-- Sanity: the catalog entry under "default" is `defaultPreset`. -/
theorem lookup_default : lookupPreset "default" = some defaultPreset := by
  decide

/-! ### Helper lemmas about the segments of the compiled stage list -/

/-- Membership in a conditionally emitted singleton segment. -/
theorem mem_ite_singleton {α : Type} {c : Bool} {x s : α}
    (h : s ∈ (if c then [x] else [])) : s = x := by
  cases c with
  | false => simp at h
  | true => simpa using h

/-- A conditionally emitted singleton segment is a sublist of the singleton. -/
theorem ite_singleton_sublist {α : Type} (c : Bool) (x : α) :
    (if c then [x] else []).Sublist [x] := by
  cases c with
  | false => simp
  | true => simp

/-- Every element of the head segments is an Upload, Scale, Deinterlace,
ToneMap or FrameRateConvert stage (with the given CUDA flag). -/
theorem mem_headSegs {u : Bool} {p : Preset} {s : FilterStage}
    (h : s ∈ headSegs u p) :
    s = FilterStage.upload ∨
    (∃ w h2, s = FilterStage.scale u w h2) ∨
    s = FilterStage.deinterlace u ∨
    s = FilterStage.tonemap u ∨
    (∃ f, s = FilterStage.framerate f) := by
  unfold headSegs at h
  simp only [List.mem_append] at h
  rcases h with ((((h | h) | h) | h) | h)
  · exact Or.inl (mem_ite_singleton h)
  · cases hp : p.scale with
    | none => rw [hp] at h; simp at h
    | some wh =>
        rw [hp] at h; simp at h
        exact Or.inr (Or.inl ⟨wh.1, wh.2, h⟩)
  · exact Or.inr (Or.inr (Or.inl (mem_ite_singleton h)))
  · exact Or.inr (Or.inr (Or.inr (Or.inl (mem_ite_singleton h))))
  · cases hp : p.fps with
    | none => rw [hp] at h; simp at h
    | some f =>
        rw [hp] at h; simp at h
        exact Or.inr (Or.inr (Or.inr (Or.inr ⟨f, h⟩)))

/-- Head segments contain no CPU-only stage and no Download stage. -/
theorem headSegs_props {u : Bool} {p : Preset} :
    ∀ s ∈ headSegs u p, isCpuOnly s = false ∧ isDownload s = false := by
  intro s h
  rcases mem_headSegs h with h | ⟨w, h2, h⟩ | h | h | ⟨f, h⟩ <;>
    subst h <;> exact ⟨rfl, rfl⟩

/-- Every element of the tail segments is a CPU-only stage; none is an
Upload, Download or accelerated stage. -/
theorem tailSegs_props {p : Preset} {lut : Option String} :
    ∀ s ∈ tailSegs p lut,
      isCpuOnly s = true ∧ isDownload s = false ∧ isUpload s = false ∧
      isAccelerated s = false := by
  intro s h
  unfold tailSegs at h
  simp only [List.mem_append] at h
  rcases h with (((((h | h) | h) | h) | h) | h) <;>
    (have hx := mem_ite_singleton h; subst hx; exact ⟨rfl, rfl, rfl, rfl⟩)

/-- When the requested-CPU-filter test is true, the tail is non-empty. -/
theorem tailSegs_ne_nil {p : Preset} {lut : Option String}
    (h : (strTruthy lut || dictTruthy p.eq || strTruthy p.unsharp) = true) :
    tailSegs p lut ≠ [] := by
  intro hnil
  have hlen := congrArg List.length hnil
  simp only [tailSegs, List.length_append, List.length_nil] at hlen
  rcases Bool.or_eq_true_iff.mp h with h1 | h1
  · rcases Bool.or_eq_true_iff.mp h1 with h2 | h2
    · rw [if_pos h2] at hlen
      simp at hlen
    · rw [if_pos h2] at hlen
      simp at hlen
  · rw [if_pos h1] at hlen
    simp at hlen

/-- The head segments form a sublist of one stage of each head kind, in
emission order. -/
theorem headSegs_sublist (u : Bool) (p : Preset) :
    (headSegs u p).Sublist
      [FilterStage.upload,
       FilterStage.scale u (p.scale.getD (0, 0)).1 (p.scale.getD (0, 0)).2,
       FilterStage.deinterlace u, FilterStage.tonemap u,
       FilterStage.framerate (p.fps.getD "")] := by
  unfold headSegs
  have h2 : (match p.scale with
      | some wh => [FilterStage.scale u wh.1 wh.2]
      | none => ([] : List FilterStage)).Sublist
      [FilterStage.scale u (p.scale.getD (0, 0)).1 (p.scale.getD (0, 0)).2] := by
    cases p.scale with
    | none => simp
    | some wh => simp
  have h5 : (match p.fps with
      | some f => [FilterStage.framerate f]
      | none => ([] : List FilterStage)).Sublist
      [FilterStage.framerate (p.fps.getD "")] := by
    cases p.fps with
    | none => simp
    | some f => simp
  exact ((((ite_singleton_sublist _ _).append h2).append
    (ite_singleton_sublist _ _)).append (ite_singleton_sublist _ _)).append h5

/-- The tail segments form a sublist of one stage of each tail kind, in
emission order. -/
theorem tailSegs_sublist (p : Preset) (lut : Option String) :
    (tailSegs p lut).Sublist
      [FilterStage.colorLut (lut.getD ""), FilterStage.colorEq (p.eq.getD []),
       FilterStage.sharpen (p.unsharp.getD ""),
       FilterStage.grain (toString (p.grain.getD 0)),
       FilterStage.letterbox (p.letterbox.getD ""),
       FilterStage.vignette (p.vignette.getD "")] := by
  unfold tailSegs
  exact (((((ite_singleton_sublist _ _).append (ite_singleton_sublist _ _)).append
    (ite_singleton_sublist _ _)).append (ite_singleton_sublist _ _)).append
    (ite_singleton_sublist _ _)).append (ite_singleton_sublist _ _)

/-- Every compiled stage list is a sublist of the master pipeline. -/
theorem buildStageList_sublist (hasCuda : Bool) (p : Preset) (lut : Option String) :
    (buildStageList hasCuda p lut).Sublist (masterStages hasCuda p lut) := by
  unfold buildStageList masterStages
  exact ((headSegs_sublist _ p).append (ite_singleton_sublist _ _)).append
    (tailSegs_sublist p lut)

/-- With `use_cuda` off, no head stage is accelerated (the Upload segment is
empty and the CUDA flag of every emitted stage is `false`). -/
theorem headSegs_software (p : Preset) :
    ∀ s ∈ headSegs false p, isAccelerated s = false := by
  intro s h
  unfold headSegs at h
  simp only [List.mem_append] at h
  rcases h with ((((h | h) | h) | h) | h)
  · simp at h
  · cases hp : p.scale with
    | none => rw [hp] at h; simp at h
    | some wh => rw [hp] at h; simp at h; subst h; rfl
  · have hx := mem_ite_singleton h; subst hx; rfl
  · have hx := mem_ite_singleton h; subst hx; rfl
  · cases hp : p.fps with
    | none => rw [hp] at h; simp at h
    | some f => rw [hp] at h; simp at h; subst h; rfl

/-- The master pipeline's stage tags are strictly increasing. -/
theorem masterStages_pairwise (hasCuda : Bool) (p : Preset) (lut : Option String) :
    (masterStages hasCuda p lut).Pairwise (fun a b => tagOf a < tagOf b) := by
  unfold masterStages
  simp [List.pairwise_cons, tagOf]

/-- Claim C6: for every preset and capability input, the compiled pipeline
respects the mandated stage order.  Whenever stage `a` appears strictly
before stage `b` in the compiled list, `tagOf a < tagOf b`, where the tag
order is Upload < Scale < Deinterlace < ToneMap < FrameRateConvert <
Download < ColorLUT < ColorCorrect < Sharpen < Grain < Letterbox < Vignette.
In particular Scale (when requested) precedes Deinterlace and ToneMap,
Deinterlace precedes ToneMap, ToneMap precedes FrameRateConvert, and the
CPU-only tail is ordered color LUT, color correction, sharpen, grain,
letterbox, vignette. -/
theorem stage_order (hasCuda : Bool) (p : Preset) (lut : Option String) :
    (buildStageList hasCuda p lut).Pairwise (fun a b => tagOf a < tagOf b) :=
  (masterStages_pairwise hasCuda p lut).sublist
    (buildStageList_sublist hasCuda p lut)

/-- Counterexample to claim C1 as stated: for the scenario preset
`{encoder:"h264_nvenc", scale:(1920,1080), deinterlace:true}` and
capabilities `{accel_encode:true, accel_filters:true}`, the compiled
pipeline is NOT `[Upload, Scale(1920,1080,accelerated),
Deinterlace(accelerated)]`. -/
theorem scenario_pipeline_cex :
    buildStageList true scenarioPreset none ≠
      [FilterStage.upload, FilterStage.scale true 1920 1080,
       FilterStage.deinterlace true] := by
  decide

/-- Claim C1 (amended): for the scenario preset and fully accelerated
capabilities the compiled pipeline is exactly
`[Scale(1920,1080,accelerated), Deinterlace(accelerated)]`, with no Upload
stage, because the preset's `hwaccel` flag defaults to true so the frame
already originates on the accelerator; the pipeline
`[Upload, Scale(1920,1080,accelerated), Deinterlace(accelerated)]` is
produced exactly when the preset additionally sets `hwaccel:false`. -/
theorem scenario_pipeline :
    buildStageList true scenarioPreset none =
      [FilterStage.scale true 1920 1080, FilterStage.deinterlace true] ∧
    buildStageList true scenarioPresetNoHwaccel none =
      [FilterStage.upload, FilterStage.scale true 1920 1080,
       FilterStage.deinterlace true] := by
  decide

/-- Counterexample to claim C2 as stated: the preset `{grain: 5}` requests a
CPU-only tail stage (film grain) while accelerated execution is in use, yet
the compiled pipeline contains no Download stage at all (the source's
`needs_cpu_filters` test only checks the LUT, `eq` and `unsharp` fields). -/
theorem grain_no_download_cex :
    (true && grainPreset.use_cuda.getD true) = true ∧
    (∃ s ∈ buildStageList true grainPreset none, isCpuOnly s = true) ∧
    buildStageList true grainPreset none = [FilterStage.grain "5"] ∧
    (buildStageList true grainPreset none).countP isDownload = 0 := by
  decide

/-- Claim C2 (amended): for every preset that requests at least one of the
CPU-only stages tested by `needs_cpu_filters` — color LUT, color correction
(`eq`) or sharpen (`unsharp`) — while accelerated execution is in use, the
compiled pipeline splits as head stages, then exactly one Download stage,
then a non-empty all-CPU-only tail: the head holds no Download and no
CPU-only stage (so the Download stands immediately before the first CPU-only
stage), every stage after the Download is CPU-only, and no Upload or further
Download follows it.  Presets whose only CPU-only stages are grain,
letterbox or vignette do not receive a Download stage (see the
counterexample). -/
theorem download_before_cpu_tail (hasCuda : Bool) (p : Preset)
    (lut : Option String)
    (hc : (hasCuda && p.use_cuda.getD true) = true)
    (hreq : (strTruthy lut || dictTruthy p.eq || strTruthy p.unsharp) = true) :
    buildStageList hasCuda p lut =
      headSegs true p ++ FilterStage.download :: tailSegs p lut ∧
    (headSegs true p).countP isDownload = 0 ∧
    (headSegs true p).countP isCpuOnly = 0 ∧
    tailSegs p lut ≠ [] ∧
    (tailSegs p lut).countP isCpuOnly = (tailSegs p lut).length ∧
    (tailSegs p lut).countP isDownload = 0 ∧
    (tailSegs p lut).countP isUpload = 0 := by
  refine ⟨?_, ?_, ?_, tailSegs_ne_nil hreq, ?_, ?_, ?_⟩
  · simp [buildStageList, hc, hreq]
  · exact List.countP_eq_zero.mpr
      (fun s hs => by simp [(headSegs_props s hs).2])
  · exact List.countP_eq_zero.mpr
      (fun s hs => by simp [(headSegs_props s hs).1])
  · exact List.countP_eq_length.mpr (fun s hs => (tailSegs_props s hs).1)
  · exact List.countP_eq_zero.mpr
      (fun s hs => by simp [(tailSegs_props s hs).2.1])
  · exact List.countP_eq_zero.mpr
      (fun s hs => by simp [(tailSegs_props s hs).2.2.1])

/-- Witness for C2 (amended), at the concrete preset `{unsharp:"3:3:0.3"}`
with CUDA available. -/
theorem download_before_cpu_tail_witness :
    buildStageList true unsharpPreset none =
      headSegs true unsharpPreset ++
        FilterStage.download :: tailSegs unsharpPreset none ∧
    (headSegs true unsharpPreset).countP isDownload = 0 ∧
    (headSegs true unsharpPreset).countP isCpuOnly = 0 ∧
    tailSegs unsharpPreset none ≠ [] ∧
    (tailSegs unsharpPreset none).countP isCpuOnly =
      (tailSegs unsharpPreset none).length ∧
    (tailSegs unsharpPreset none).countP isDownload = 0 ∧
    (tailSegs unsharpPreset none).countP isUpload = 0 :=
  download_before_cpu_tail true unsharpPreset none (by decide) (by decide)

/-- Claim C3 (the code violates it): in `batch_process`, the remote failure
of one job aborts the whole wait loop.  With two submitted jobs where the
first one's single poll reports `failed` ("GPU out of memory") and the
second one's reports `completed` with output file "file-b", `wait_for_job`
raises on the first job and the loop produces no downloads at all — the
second job is never awaited, its result never downloaded, its outcome never
reported — instead of reporting each job's outcome independently. -/
theorem batch_abort_on_failure :
    waitForJob 3600 0 [(JobStatus.failed (some "GPU out of memory"), 5)] =
      WaitOutcome.raised "Job failed: GPU out of memory" ∧
    waitForJob 3600 0 [(JobStatus.completed "file-b", 5)] =
      WaitOutcome.finished "file-b" ∧
    batchAwait
      [("clip_a.mp4", waitForJob 3600 0
          [(JobStatus.failed (some "GPU out of memory"), 5)]),
       ("clip_b.mp4", waitForJob 3600 0
          [(JobStatus.completed "file-b", 5)])] =
      ([], some "Job failed: GPU out of memory") := by
  decide

/-- The invocation descriptor always carries the `-c:v` flag followed by the
selected encoder. -/
theorem cv_block_infix (ff : String) (n c : Bool) (i o : String) (p : Preset)
    (lut : Option String) :
    List.IsInfix ["-c:v", selectEncoder n p] (buildGpuCommand ff n c i o p lut) := by
  refine ⟨[ff, "-hide_banner", "-y"]
      ++ (if p.hwaccel.getD true && n then
            ["-hwaccel", "cuda", "-hwaccel_output_format", "cuda"]
          else [])
      ++ ["-i", i] ++ vfArgs c p lut,
    (if hasNvencName (selectEncoder n p) then
        ["-preset", lookupD NVENC_PRESETS (p.speed.getD "medium") "p4",
         "-rc", p.rate_control.getD "vbr",
         "-cq", toString (p.cq.getD 23),
         "-b:v", p.bitrate.getD "0",
         "-maxrate", p.maxrate.getD "50M",
         "-bufsize", p.bufsize.getD "100M"]
        ++ (if strTruthy p.tune then ["-tune", p.tune.getD ""] else [])
        ++ ["-bf", toString (p.bframes.getD 3)]
      else
        ["-preset", p.cpu_preset.getD "medium",
         "-crf", toString (p.crf.getD 23)])
      ++ (let audioCodec := p.audio_codec.getD "aac"
          if audioCodec == "copy" then ["-c:a", "copy"]
          else ["-c:a", audioCodec,
                "-b:a", p.audio_bitrate.getD "128k",
                "-ar", toString (p.audio_sample_rate.getD 48000)])
      ++ (if p.faststart.getD true then ["-movflags", "+faststart"] else [])
      ++ [o], ?_⟩
  simp [buildGpuCommand, List.append_assoc]

/-- Counterexample to claim C4 as stated: the preset
`{encoder:"h264_nvenc"}` keeps its explicit accelerated encoder even when
the probe reports accelerated encoding unavailable (`has_nvenc = false`):
the invocation descriptor selects `h264_nvenc`, not a software encoder. -/
theorem explicit_encoder_kept_cex :
    selectEncoder false explicitNvencPreset = "h264_nvenc" ∧
    hasNvencName "h264_nvenc" = true ∧
    buildGpuCommand "ffmpeg" false false "in.mp4" "out.mp4"
        explicitNvencPreset none =
      ["ffmpeg", "-hide_banner", "-y", "-i", "in.mp4", "-c:v", "h264_nvenc",
       "-preset", "p4", "-rc", "vbr", "-cq", "23", "-b:v", "0",
       "-maxrate", "50M", "-bufsize", "100M", "-bf", "3", "-c:a", "aac",
       "-b:a", "128k", "-ar", "48000", "-movflags", "+faststart",
       "out.mp4"] := by
  decide

/-- Claim C4 (amended): encoder selection falls back to software only for
presets that do not explicitly set an encoder: for every such preset, when
accelerated encoding is unavailable the selected video encoder is the
software fallback `libx264` (not an nvenc encoder) and the descriptor
carries `-c:v libx264`; when accelerated encoding is available the default
is `h264_nvenc`.  A preset's explicit `encoder` field is used verbatim
regardless of hardware availability (see the counterexample). -/
theorem encoder_fallback (p : Preset) (hasCuda : Bool) (lut : Option String)
    (h : p.encoder = none) :
    selectEncoder false p = "libx264" ∧
    hasNvencName (selectEncoder false p) = false ∧
    selectEncoder true p = "h264_nvenc" ∧
    List.IsInfix ["-c:v", "libx264"]
      (buildGpuCommand "ffmpeg" false hasCuda "in.mp4" "out.mp4" p lut) := by
  have h1 : selectEncoder false p = "libx264" := by simp [selectEncoder, h]
  refine ⟨h1, by rw [h1]; decide, by simp [selectEncoder, h], ?_⟩
  have hinf := cv_block_infix "ffmpeg" false hasCuda "in.mp4" "out.mp4" p lut
  rwa [h1] at hinf

/-- Witness for C4 (amended), at the empty preset. -/
theorem encoder_fallback_witness :
    selectEncoder false emptyPreset = "libx264" ∧
    hasNvencName (selectEncoder false emptyPreset) = false ∧
    selectEncoder true emptyPreset = "h264_nvenc" ∧
    List.IsInfix ["-c:v", "libx264"]
      (buildGpuCommand "ffmpeg" false true "in.mp4" "out.mp4"
        emptyPreset none) :=
  encoder_fallback emptyPreset true none rfl

/-- The timeout message raised by the wait loop differs from every message
the loop raises for a remotely Failed job. -/
theorem timeout_msg_ne (d : String) :
    "Job timed out after 0 seconds" ≠ "Job failed: " ++ d := by
  intro h
  have h2 := congrArg String.data h
  rw [String.data_append] at h2
  have h3 := congrArg (List.take 5) h2
  rw [List.take_append_of_le_length (by decide)] at h3
  revert h3
  decide

/-- Claim C5: `wait_for_job` with `timeout=0` raises the timeout failure on
the first poll whenever that poll is non-terminal and consumed any positive
amount of time (elapsed time is measured against `start`, the clock reading
taken at the top of the call) — it does not keep looping, whatever the rest
of the trace holds; a job that instead reports Failed raises the job-failure
message; and the two raised failures are distinct for every error detail. -/
theorem wait_timeout_zero (start t : Nat) (st : JobStatus)
    (rest : List (JobStatus × Nat)) (e : Option String)
    (hst : st = JobStatus.queued ∨ st = JobStatus.running)
    (ht : start < t) :
    waitForJob 0 start ((st, t) :: rest) =
      WaitOutcome.raised "Job timed out after 0 seconds" ∧
    waitForJob 0 start ((JobStatus.failed e, t) :: rest) =
      WaitOutcome.raised ("Job failed: " ++ e.getD "Unknown error") ∧
    WaitOutcome.raised "Job timed out after 0 seconds" ≠
      WaitOutcome.raised ("Job failed: " ++ e.getD "Unknown error") := by
  refine ⟨?_, by simp [waitForJob], ?_⟩
  · rcases hst with rfl | rfl <;>
      · simp only [waitForJob]
        rw [if_pos (by omega)]
        decide
  · intro hcontra
    injection hcontra with hmsg
    exact timeout_msg_ne _ hmsg

/-- Witness for C5, at `start = 0`, one queued poll at time 1, no error
detail. -/
theorem wait_timeout_zero_witness :
    waitForJob 0 0 [(JobStatus.queued, 1)] =
      WaitOutcome.raised "Job timed out after 0 seconds" ∧
    waitForJob 0 0 [(JobStatus.failed none, 1)] =
      WaitOutcome.raised ("Job failed: " ++ Option.getD none "Unknown error") ∧
    WaitOutcome.raised "Job timed out after 0 seconds" ≠
      WaitOutcome.raised ("Job failed: " ++ Option.getD none "Unknown error") :=
  wait_timeout_zero 0 1 JobStatus.queued [] none (Or.inl rfl) (by decide)

/-- Claim C7: when accelerated execution is unavailable (`has_cuda` false)
or disabled by configuration (`use_cuda: false`), no compiled stage is
accelerated — every stage uses its software variant and no Upload or
Download stage is emitted — and the scenario preset with capabilities
`{accel_encode:false, accel_filters:false}` compiles to exactly
`[Scale(1920,1080,software), Deinterlace(software)]`. -/
theorem software_path (hasCuda : Bool) (p : Preset) (lut : Option String)
    (h : (hasCuda && p.use_cuda.getD true) = false) :
    (buildStageList hasCuda p lut).countP isAccelerated = 0 ∧
    buildStageList false scenarioPreset none =
      [FilterStage.scale false 1920 1080, FilterStage.deinterlace false] := by
  constructor
  · have hb : buildStageList hasCuda p lut = headSegs false p ++ tailSegs p lut := by
      simp [buildStageList, h]
    have h1 : (headSegs false p).countP isAccelerated = 0 :=
      List.countP_eq_zero.mpr
        (fun s hs => by simp [headSegs_software p s hs])
    have h2 : (tailSegs p lut).countP isAccelerated = 0 :=
      List.countP_eq_zero.mpr
        (fun s hs => by simp [(tailSegs_props s hs).2.2.2])
    rw [hb, List.countP_append, h1, h2]
  · decide

/-- Witness for C7, at the scenario preset with no acceleration. -/
theorem software_path_witness :
    (buildStageList false scenarioPreset none).countP isAccelerated = 0 ∧
    buildStageList false scenarioPreset none =
      [FilterStage.scale false 1920 1080, FilterStage.deinterlace false] :=
  software_path false scenarioPreset none (by decide)

/-- Claim C8: the command compiler is total and shape-stable: for every
preset (any subset of optional fields present), every capability combination
and every path, the invocation descriptor is produced, beginning with the
encoder binary and ending with the output path; and the empty preset (no
field present at all) compiles to the fully-defaulted descriptor, with every
missing field replaced by its implementation default and no filter-graph
argument for the absent optional stages. -/
theorem build_command_total (ff : String) (hasNvenc hasCuda : Bool)
    (inp out : String) (p : Preset) (lut : Option String) :
    (buildGpuCommand ff hasNvenc hasCuda inp out p lut).head? = some ff ∧
    (buildGpuCommand ff hasNvenc hasCuda inp out p lut).getLast? = some out ∧
    buildGpuCommand "ffmpeg" true true "in.mp4" "out.mp4" emptyPreset none =
      ["ffmpeg", "-hide_banner", "-y", "-hwaccel", "cuda",
       "-hwaccel_output_format", "cuda", "-i", "in.mp4", "-c:v", "h264_nvenc",
       "-preset", "p4", "-rc", "vbr", "-cq", "23", "-b:v", "0",
       "-maxrate", "50M", "-bufsize", "100M", "-bf", "3", "-c:a", "aac",
       "-b:a", "128k", "-ar", "48000", "-movflags", "+faststart",
       "out.mp4"] := by
  refine ⟨?_, ?_, by decide⟩
  · simp [buildGpuCommand]
  · simp only [buildGpuCommand]
    exact List.getLast?_concat _

/-- Claim C9: `get_preset` is total and silently falls back: for every name
that is not a key of the preset catalog, it returns the catalog's "default"
preset, indistinguishable from explicitly requesting "default". -/
theorem get_preset_fallback (name : String)
    (h : lookupPreset name = none) :
    get_preset name = defaultPreset ∧
    get_preset name = get_preset "default" := by
  constructor
  · simp [get_preset, h]
  · simp [get_preset, h, lookup_default]

/-- Witness for C9, at the unknown name "nonexistent". -/
theorem get_preset_fallback_witness :
    get_preset "nonexistent" = defaultPreset ∧
    get_preset "nonexistent" = get_preset "default" :=
  get_preset_fallback "nonexistent" (by decide)

/-- Claim C10: when the compiled filter chain is empty, the invocation
descriptor carries no filter-graph argument at all: the `-vf` block is the
empty argument list (so neither a "-vf" flag nor an empty filter string is
emitted), as the fully-defaulted empty-preset descriptor also shows
concretely. -/
theorem empty_chain_no_vf (hasCuda : Bool) (p : Preset) (lut : Option String)
    (h : buildFilterChain hasCuda p lut = "") :
    vfArgs hasCuda p lut = [] ∧
    "-vf" ∉ buildGpuCommand "ffmpeg" true true "in.mp4" "out.mp4"
      emptyPreset none ∧
    "" ∉ buildGpuCommand "ffmpeg" true true "in.mp4" "out.mp4"
      emptyPreset none := by
  refine ⟨?_, by decide, by decide⟩
  simp [vfArgs, h]

/-- Witness for C10, at the empty preset with CUDA available. -/
theorem empty_chain_no_vf_witness :
    vfArgs true emptyPreset none = [] ∧
    "-vf" ∉ buildGpuCommand "ffmpeg" true true "in.mp4" "out.mp4"
      emptyPreset none ∧
    "" ∉ buildGpuCommand "ffmpeg" true true "in.mp4" "out.mp4"
      emptyPreset none :=
  empty_chain_no_vf true emptyPreset none (by decide)
